import Mathlib

set_option maxRecDepth 8000

/- Shallow embedding of the batch transcription flow of talhashah/audio-scribe.
   The authoritative file is src/transcribe-all-files.py (whisper batch run);
   the output-file naming lines of src/transcribe-azure.py and
   src/transcribe-openai.py are embedded as well, since the naming claims cite
   them.  The filesystem, the clock and the speech-to-text backend (whisper
   model loading plus the transcription call, or the vendor HTTP call) are
   modelled as an explicit `World` record of pure functions; Python exception
   propagation is modelled with `Except PyErr`, and Python `None` with
   `Option.none`. -/

/-- Supported audio file extensions, src/transcribe-all-files.py line 7. -/
def SUPPORTED_EXTENSIONS : List String :=
  [".mp3", ".wav", ".m4a", ".flac", ".ogg", ".aac", ".mp4"]

/-- Valid Whisper model sizes, src/transcribe-all-files.py line 8. -/
def VALID_MODELS : List String := ["tiny", "base", "small", "medium", "large"]

/-- Kinds of Python exception the embedded code can raise: FileNotFoundError,
ValueError, an opaque backend failure (API, network, model loading), and
OSError from a file write. -/
inductive PyErr where
  | fileNotFound (msg : String)
  | valueError (msg : String)
  | backendError (msg : String)
  | ioError (msg : String)
  deriving DecidableEq

instance {ε α : Type} [DecidableEq ε] [DecidableEq α] :
    DecidableEq (Except ε α) := fun a b =>
  match a, b with
  | Except.error x, Except.error y =>
      if h : x = y then Decidable.isTrue (by rw [h])
      else Decidable.isFalse (fun hc => h (Except.error.inj hc))
  | Except.ok x, Except.ok y =>
      if h : x = y then Decidable.isTrue (by rw [h])
      else Decidable.isFalse (fun hc => h (Except.ok.inj hc))
  | Except.error _, Except.ok _ =>
      Decidable.isFalse (fun hc => Except.noConfusion hc)
  | Except.ok _, Except.error _ =>
      Decidable.isFalse (fun hc => Except.noConfusion hc)

/-- One entry of a directory listing: the entry name as returned by
`os.listdir` (no path separator) and whether the entry is itself a
directory.  The Python code never inspects the kind, which is exactly what
claim C10 is about. -/
structure Entry where
  name : String
  isDirectory : Bool
  deriving DecidableEq

/-- The ambient state the script consults: `os.path.exists`, `os.path.isdir`,
`os.listdir`, the transcription backend as a pure function of the model
identifier and the audio path (whisper.load_model(...).transcribe(...) merged
into one call, as the spec's opaque `TranscriptionBackend`), the formatted
local-time stamp `datetime.now().strftime` delivers, and whether a write to a
given path fails.  The world is static during one run. -/
structure World where
  pathExists : String → Bool
  isDir : String → Bool
  listdir : String → List Entry
  backend : String → String → Except PyErr String
  now : String
  writeErr : String → Option PyErr

/-- Python `str.lower`, character by character (faithful on the ASCII
extension strings the program compares). -/
def lowerStr (s : String) : String := ⟨s.data.map Char.toLower⟩

/-- Index of the last occurrence of a character, scanning left to right with
an accumulator. -/
def lastIdxOf (c : Char) : List Char → Nat → Option Nat → Option Nat
  | [], _, acc => acc
  | d :: ds, i, acc => lastIdxOf c ds (i + 1) (if d = c then some i else acc)

/-- Index of the extension dot chosen by `os.path.splitext` on a
separator-free name: the last dot, provided some earlier character of the
name is not a dot (CPython skips leading dots, so ".mp3" has no extension).
All call sites in the source apply splitext to `os.listdir` names or to
`os.path.basename` results, which contain no path separator. -/
def splitextIdx (p : String) : Option Nat :=
  match lastIdxOf '.' p.data 0 none with
  | none => none
  | some i => if (p.data.take i).any (fun c => c != '.') then some i else none

/-- Python `os.path.splitext` on a separator-free name: root and extension. -/
def splitext (p : String) : String × String :=
  match splitextIdx p with
  | none => (p, "")
  | some i => (⟨p.data.take i⟩, ⟨p.data.drop i⟩)

/-- Python `os.path.basename`: everything after the last slash. -/
def basename (p : String) : String :=
  match lastIdxOf '/' p.data 0 none with
  | none => p
  | some j => ⟨p.data.drop (j + 1)⟩

/-- Python `os.path.dirname`: everything up to the last slash, with trailing
slashes stripped unless the head is all slashes. -/
def dirname (p : String) : String :=
  match lastIdxOf '/' p.data 0 none with
  | none => ""
  | some j =>
      let head := p.data.take (j + 1)
      if head.all (fun c => c == '/') then ⟨head⟩
      else ⟨(head.reverse.dropWhile (fun c => c == '/')).reverse⟩

/-- Python `str.startswith`, over the character lists (String.startsWith is
byte-position based and does not reduce in the kernel). -/
def strStartsWith (s pre : String) : Bool := pre.data.isPrefixOf s.data

/-- Python `str.endswith`, over the character lists. -/
def strEndsWith (s suf : String) : Bool := suf.data.isSuffixOf s.data

/-- Python `os.path.join` for two components. -/
def joinPath (a b : String) : String :=
  if strStartsWith b "/" then b
  else if a = "" ∨ strEndsWith a "/" = true then a ++ b
  else a ++ "/" ++ b

/-- Result vocabulary of the spec's `run` contract: `Success{text,
outputPath}` or `Failure{path, errorMessage}`.  The Python code never
constructs such a value — `process_audio_folder` returns Python `None` on
every non-raising path, which the embedding renders as
`none : Option (List TranscriptionResult)`. -/
inductive TranscriptionResult where
  | success (text outputPath : String)
  | failure (path errorMessage : String)
  deriving DecidableEq

/-- Observable side effects of one `transcribe_audio_file` call: the audio
paths handed to the backend, and the file writes performed.  Each `writes`
entry is one whole-file create-or-truncate UTF-8 write of the given content
to the given path (`open(output_path, mode="w", encoding="utf-8")` followed
by a single `f.write`). -/
structure Eff where
  backendCalls : List String
  writes : List (String × String)
  deriving DecidableEq

def Eff.empty : Eff := ⟨[], []⟩

def Eff.append (a b : Eff) : Eff :=
  ⟨a.backendCalls ++ b.backendCalls, a.writes ++ b.writes⟩

/-- Body of the `try:` block of `transcribe_audio_file`
(src/transcribe-all-files.py lines 20-49): existence check on the input path
(raising FileNotFoundError), model-size validation (raising ValueError),
backend call, output-path construction
`{base_name}_transcription_{timestamp}.txt`, and the write.  An
`Except.error` is an exception reaching the end of the `try` body. -/
def transcribe_audio_file_try (w : World) (file_path : String)
    (output_dir : Option String) (model_size : String) :
    Except PyErr String × Eff :=
  if w.pathExists file_path = false then
    (Except.error (PyErr.fileNotFound ("Input file not found: " ++ file_path)),
     Eff.empty)
  else if VALID_MODELS.contains model_size = false then
    (Except.error (PyErr.valueError
        ("Invalid model size. Choose from: " ++
          String.intercalate ", " VALID_MODELS)),
     Eff.empty)
  else
    match w.backend model_size file_path with
    | Except.error e => (Except.error e, ⟨[file_path], []⟩)
    | Except.ok text =>
        let od := match output_dir with
          | none => dirname file_path
          | some d => d
        let base_name := (splitext (basename file_path)).1
        let output_path :=
          joinPath od (base_name ++ "_transcription_" ++ w.now ++ ".txt")
        match w.writeErr output_path with
        | some e => (Except.error e, ⟨[file_path], []⟩)
        | none => (Except.ok output_path, ⟨[file_path], [(output_path, text)]⟩)

/-- `transcribe_audio_file` (src/transcribe-all-files.py lines 10-53): the
`try` body wrapped in the catch-all `except Exception` handler, which prints
a diagnostic and returns Python `None`; on success the function returns the
output path.  The returned `Except` is the function's own propagation
behaviour towards its caller. -/
def transcribe_audio_file (w : World) (file_path : String)
    (output_dir : Option String) (model_size : String) :
    Except PyErr (Option String) × Eff :=
  match transcribe_audio_file_try w file_path output_dir model_size with
  | (Except.ok p, eff) => (Except.ok (some p), eff)
  | (Except.error _, eff) => (Except.ok none, eff)

/-- The filtering list comprehension of `process_audio_folder`
(src/transcribe-all-files.py lines 73-74): keep the directory entries whose
`os.path.splitext` extension, lowercased, is in the extension list.  No
regular-file check is performed. -/
def matchingEntries (entries : List Entry) (exts : List String) : List Entry :=
  entries.filter (fun f => exts.contains (lowerStr (splitext f.name).2))

/-- The `files` list of `process_audio_folder`: names from
`os.listdir(folder_path)` that pass the extension filter with
SUPPORTED_EXTENSIONS. -/
def discoveredFiles (w : World) (folder_path : String) : List String :=
  (matchingEntries (w.listdir folder_path) SUPPORTED_EXTENSIONS).map Entry.name

/-- The per-file loop of `process_audio_folder`
(src/transcribe-all-files.py lines 82-85): for each filename, call
`transcribe_audio_file(os.path.join(folder_path, filename), output_dir,
model_size)`, discarding the returned value except into the run's trace.
An exception escaping an iteration would abort the loop and propagate
(first component `Except.error`); otherwise the list of the per-call return
values is produced in order. -/
def loopFiles (w : World) (folder_path output_dir model_size : String) :
    List String → Except PyErr (List (Option String)) × Eff
  | [] => (Except.ok [], Eff.empty)
  | f :: fs =>
      match transcribe_audio_file w (joinPath folder_path f)
          (some output_dir) model_size with
      | (Except.error e, eff) => (Except.error e, eff)
      | (Except.ok r, eff) =>
          match loopFiles w folder_path output_dir model_size fs with
          | (Except.error e, eff2) => (Except.error e, Eff.append eff eff2)
          | (Except.ok rs, eff2) =>
              (Except.ok (r :: rs), Eff.append eff eff2)

/-- Observable trace of one `process_audio_folder` call: directories created
by `os.makedirs`, the return value of each per-file `transcribe_audio_file`
call in order, and the accumulated backend calls and file writes. -/
structure BatchEff where
  madeDirs : List String
  fileResults : List (Option String)
  backendCalls : List String
  writes : List (String × String)
  deriving DecidableEq

/-- `process_audio_folder` (src/transcribe-all-files.py lines 55-85): raise
FileNotFoundError unless `os.path.isdir(folder_path)`; create `output_dir`
when it is truthy and does not exist; filter the listing; if no file
matches, print a message and return Python `None`; otherwise run the loop
over all matching names and fall off the end, again returning Python `None`.
The first component is the value propagated to the caller, typed with the
spec's result vocabulary so that the `None`-versus-sequence claims can be
stated; the code only ever produces `none`. -/
def process_audio_folder (w : World) (folder_path output_dir model_size : String) :
    Except PyErr (Option (List TranscriptionResult)) × BatchEff :=
  if w.isDir folder_path = false then
    (Except.error (PyErr.fileNotFound ("Folder not found: " ++ folder_path)),
     ⟨[], [], [], []⟩)
  else
    let made :=
      if output_dir ≠ "" ∧ w.pathExists output_dir = false then [output_dir]
      else []
    let files := discoveredFiles w folder_path
    if files.isEmpty then
      (Except.ok none, ⟨made, [], [], []⟩)
    else
      match loopFiles w folder_path output_dir model_size files with
      | (Except.error e, eff) =>
          (Except.error e, ⟨made, [], eff.backendCalls, eff.writes⟩)
      | (Except.ok rs, eff) =>
          (Except.ok none, ⟨made, rs, eff.backendCalls, eff.writes⟩)

/-- Output filename format of the batch script,
src/transcribe-all-files.py line 42. -/
def batch_output_name (base ts : String) : String :=
  base ++ "_transcription_" ++ ts ++ ".txt"

/-- Output filename format of src/transcribe-azure.py line 67. -/
def azure_output_name (base ts : String) : String :=
  base ++ "_transcript_azureopenai_" ++ ts ++ ".txt"

/-- Output filename format of src/transcribe-openai.py line 55. -/
def openai_output_name (base ts : String) : String :=
  base ++ "_transcription_openai_" ++ ts ++ ".txt"

/-- Output filename format of src/transcribe.py line 39. -/
def local_output_name (base ts : String) : String :=
  base ++ "_transcription_" ++ ts ++ ".txt"

/-- Naming pattern the spec prescribes for outputs, stated from the spec's
words for comparison with the formats the code implements:
`{baseName}_transcript_{vendorTag}_{timestamp}.txt`. -/
def spec_output_name (base vendorTag ts : String) : String :=
  base ++ "_transcript_" ++ vendorTag ++ "_" ++ ts ++ ".txt"

/-- Return value of one iteration of the batch loop for one filename, as the
enclosing loop observes it (the catch-all makes this total). -/
def perFileReturn (w : World) (folder od ms f : String) : Option String :=
  match transcribe_audio_file w (joinPath folder f) (some od) ms with
  | (Except.ok r, _) => r
  | (Except.error _, _) => none

example : splitext "song.MP3" = ("song", ".MP3") := by decide
example : splitext ".mp3" = (".mp3", "") := by decide
example : splitext "a.tar.mp3" = ("a.tar", ".mp3") := by decide
example : joinPath "transcripts" "x.txt" = "transcripts/x.txt" := by decide
example : basename "audio/song.mp3" = "song.mp3" := by decide

/-- Test world: folder "audio" holds three audio files; the backend fails on
"audio/talk.wav" only; every path exists; all writes succeed. -/
def wIsolation : World :=
  { pathExists := fun _ => true,
    isDir := fun p => p == "audio",
    listdir := fun _ =>
      [⟨"song.mp3", false⟩, ⟨"talk.wav", false⟩, ⟨"last.m4a", false⟩],
    backend := fun _ p =>
      if p == "audio/talk.wav" then
        Except.error (PyErr.backendError "connection reset")
      else Except.ok ("text of " ++ p),
    now := "20240101_120000",
    writeErr := fun _ => none }

/-- Test world: folder "audio" holds one audio file; everything succeeds. -/
def wOneFile : World :=
  { pathExists := fun _ => true,
    isDir := fun p => p == "audio",
    listdir := fun _ => [⟨"song.mp3", false⟩],
    backend := fun _ _ => Except.ok "hello",
    now := "20240101_120000",
    writeErr := fun _ => none }

/-- Test world: folder "audio" holds two audio files; the backend would
succeed on both; every path exists. -/
def wTwoFiles : World :=
  { pathExists := fun _ => true,
    isDir := fun p => p == "audio",
    listdir := fun _ => [⟨"a.mp3", false⟩, ⟨"b.mp3", false⟩],
    backend := fun _ _ => Except.ok "hello",
    now := "20240101_120000",
    writeErr := fun _ => none }

/-- Test world in which no path is a directory and no path exists. -/
def wNoDir : World :=
  { pathExists := fun _ => false,
    isDir := fun _ => false,
    listdir := fun _ => [],
    backend := fun _ _ => Except.error (PyErr.backendError "unreachable"),
    now := "20240101_120000",
    writeErr := fun _ => none }

/-- Test world: folder "audio" exists but holds no supported audio file, and
the output directory "transcripts" does not exist yet. -/
def wEmptyFolder : World :=
  { pathExists := fun p => p != "transcripts",
    isDir := fun p => p == "audio",
    listdir := fun _ => [⟨"notes.txt", false⟩],
    backend := fun _ _ => Except.error (PyErr.backendError "unreachable"),
    now := "20240101_120000",
    writeErr := fun _ => none }

/-- Test world: folder "d" exists and its only entry is a file literally
named ".mp3" (a dotfile whose whole name is a supported suffix). -/
def wDotfile : World :=
  { pathExists := fun _ => true,
    isDir := fun p => p == "d",
    listdir := fun _ => [⟨".mp3", false⟩],
    backend := fun _ _ => Except.ok "hello",
    now := "20240101_120000",
    writeErr := fun _ => none }

/-- The catch-all `except Exception` makes `transcribe_audio_file` total: its
caller always receives an `ok` value, never a propagated exception. -/
theorem transcribe_total (w : World) (fp : String) (od : Option String)
    (ms : String) :
    ∃ r eff, transcribe_audio_file w fp od ms = (Except.ok r, eff) := by
  unfold transcribe_audio_file
  cases h : transcribe_audio_file_try w fp od ms with
  | mk r eff =>
    cases r with
    | error e => exact ⟨none, eff, rfl⟩
    | ok p => exact ⟨some p, eff, rfl⟩

/-- The batch loop never aborts and produces, in order, each file's own
per-file return value. -/
theorem loopFiles_fst (w : World) (folder od ms : String)
    (files : List String) :
    (loopFiles w folder od ms files).1 =
      Except.ok (files.map (perFileReturn w folder od ms)) := by
  induction files with
  | nil => rfl
  | cons f fs ih =>
    obtain ⟨r, eff, h⟩ := transcribe_total w (joinPath folder f) (some od) ms
    cases h2 : loopFiles w folder od ms fs with
    | mk a b =>
      rw [h2] at ih
      simp only [List.map_cons]
      unfold loopFiles
      rw [h, h2]
      cases a with
      | error e => exact absurd ih (by simp)
      | ok rs =>
        simp only at ih
        simp only [Except.ok.injEq] at ih
        simp [perFileReturn, h, ih]

/-- On an existing folder the batch completes, returns Python None, and
records one per-file outcome per discovered file, each computed from that
file alone. -/
theorem process_fileResults (w : World) (folder od ms : String)
    (hdir : w.isDir folder = true) :
    (process_audio_folder w folder od ms).1 = Except.ok none ∧
    (process_audio_folder w folder od ms).2.fileResults =
      (discoveredFiles w folder).map (perFileReturn w folder od ms) := by
  unfold process_audio_folder
  rw [hdir]
  simp only [Bool.true_eq_false, if_false]
  cases hE : (discoveredFiles w folder).isEmpty with
  | true =>
    rw [List.isEmpty_iff] at hE
    simp [hE]
  | false =>
    have hmap := loopFiles_fst w folder od ms (discoveredFiles w folder)
    cases h2 : loopFiles w folder od ms (discoveredFiles w folder) with
    | mk a b =>
      rw [h2] at hmap
      simp only at hmap
      simp [hE, h2, hmap]

/-- C1: failure isolation in the batch run.  For every world — hence every
backend behaviour and every write outcome — and every existing folder, the
batch completes (no per-file failure aborts it) and records exactly one
outcome per discovered file, each outcome being that file's own independent
result (output path on success, None on failure), unaffected by how the
backend or the filesystem behaves on any other file. -/
theorem c1_failure_isolation (w : World) (folder od ms : String)
    (hdir : w.isDir folder = true) :
    (process_audio_folder w folder od ms).1 = Except.ok none ∧
    (process_audio_folder w folder od ms).2.fileResults =
      (discoveredFiles w folder).map (perFileReturn w folder od ms) :=
  process_fileResults w folder od ms hdir

/-- Witness for C1: a concrete world whose backend fails on the second of
three files; the batch still completes and the recorded per-file outcomes
are success, failure, success. -/
theorem c1_failure_isolation_witness :
    ((process_audio_folder wIsolation "audio" "transcripts" "base").1 =
        Except.ok none ∧
      (process_audio_folder wIsolation "audio" "transcripts" "base").2.fileResults =
        (discoveredFiles wIsolation "audio").map
          (perFileReturn wIsolation "audio" "transcripts" "base")) ∧
    (process_audio_folder wIsolation "audio" "transcripts" "base").2.fileResults =
      [some "transcripts/song_transcription_20240101_120000.txt", none,
        some "transcripts/last_transcription_20240101_120000.txt"] :=
  ⟨c1_failure_isolation wIsolation "audio" "transcripts" "base" (by decide),
    by decide⟩

/-- C6: if the folder path does not exist or is not a directory
(`os.path.isdir` false), the batch entry point raises FileNotFoundError at
once: nothing is discovered, created, called or written, and no success
value of any kind — partial or empty — is returned. -/
theorem c6_missing_folder_aborts (w : World) (folder od ms : String)
    (hdir : w.isDir folder = false) :
    process_audio_folder w folder od ms =
      (Except.error (PyErr.fileNotFound ("Folder not found: " ++ folder)),
        ⟨[], [], [], []⟩) := by
  unfold process_audio_folder
  rw [hdir]
  simp

/-- Witness for C6 at a world where no path is a directory. -/
theorem c6_missing_folder_aborts_witness :
    process_audio_folder wNoDir "audio" "transcripts" "base" =
      (Except.error (PyErr.fileNotFound ("Folder not found: " ++ "audio")),
        ⟨[], [], [], []⟩) :=
  c6_missing_folder_aborts wNoDir "audio" "transcripts" "base" (by decide)

/-- C7: when the backend succeeds on a file and the write does not fail, the
per-file operation performs exactly one whole-file create-or-truncate UTF-8
write, whose content is exactly the text the backend returned, and returns
the output path. -/
theorem c7_exact_text_written (w : World) (fp od ms text : String)
    (hex : w.pathExists fp = true)
    (hms : VALID_MODELS.contains ms = true)
    (hb : w.backend ms fp = Except.ok text)
    (hw : w.writeErr (joinPath od ((splitext (basename fp)).1 ++
        "_transcription_" ++ w.now ++ ".txt")) = none) :
    transcribe_audio_file w fp (some od) ms =
      (Except.ok (some (joinPath od ((splitext (basename fp)).1 ++
          "_transcription_" ++ w.now ++ ".txt"))),
        ⟨[fp], [(joinPath od ((splitext (basename fp)).1 ++
          "_transcription_" ++ w.now ++ ".txt"), text)]⟩) := by
  unfold transcribe_audio_file transcribe_audio_file_try
  rw [hex, hms]
  simp [hb, hw]

/-- Witness for C7 at a concrete world: the backend text "hello" is written
verbatim as the single write. -/
theorem c7_exact_text_written_witness :
    transcribe_audio_file wOneFile "audio/song.mp3" (some "transcripts") "base" =
      (Except.ok (some (joinPath "transcripts"
          ((splitext (basename "audio/song.mp3")).1 ++
            "_transcription_" ++ wOneFile.now ++ ".txt"))),
        ⟨["audio/song.mp3"], [(joinPath "transcripts"
          ((splitext (basename "audio/song.mp3")).1 ++
            "_transcription_" ++ wOneFile.now ++ ".txt"), "hello")]⟩) :=
  c7_exact_text_written wOneFile "audio/song.mp3" "transcripts" "base" "hello"
    (by decide) (by decide) (by decide) (by decide)

/-- C9: the per-file operation never propagates an exception to its caller:
the caller always receives a value; a missing input path and an invalid
model size — although raised — are swallowed into the Python-None return;
and in general every exception of the try body yields None while success
yields the output path. -/
theorem c9_catch_all (w : World) (fp : String) (od : Option String)
    (ms : String) :
    (∃ r, (transcribe_audio_file w fp od ms).1 = Except.ok r) ∧
    (w.pathExists fp = false →
      (transcribe_audio_file w fp od ms).1 = Except.ok none) ∧
    (VALID_MODELS.contains ms = false →
      (transcribe_audio_file w fp od ms).1 = Except.ok none) ∧
    (∀ e eff, transcribe_audio_file_try w fp od ms = (Except.error e, eff) →
      transcribe_audio_file w fp od ms = (Except.ok none, eff)) ∧
    (∀ p eff, transcribe_audio_file_try w fp od ms = (Except.ok p, eff) →
      transcribe_audio_file w fp od ms = (Except.ok (some p), eff)) := by
  refine ⟨?_, ?_, ?_, ?_, ?_⟩
  · obtain ⟨r, eff, h⟩ := transcribe_total w fp od ms
    exact ⟨r, by rw [h]⟩
  · intro h
    unfold transcribe_audio_file transcribe_audio_file_try
    rw [h]
    simp
  · intro h
    unfold transcribe_audio_file transcribe_audio_file_try
    cases hex : w.pathExists fp
    · simp
    · rw [h]
      simp
  · intro e eff h
    unfold transcribe_audio_file
    rw [h]
  · intro p eff h
    unfold transcribe_audio_file
    rw [h]

/-- Witness for C9: a missing input file produces the None return, not an
exception. -/
theorem c9_catch_all_witness :
    (transcribe_audio_file wNoDir "x.mp3" (some "transcripts") "base").1 =
      Except.ok none :=
  (c9_catch_all wNoDir "x.mp3" (some "transcripts") "base").2.1 (by decide)

/-- C10: discovery filters directory entries by name only and performs no
regular-file check, so an entry that is itself a subdirectory is included as
a transcription candidate whenever its lowercased splitext extension is in
the supported set. -/
theorem c10_subdirectory_included (entries : List Entry) (exts : List String)
    (n : String) (hmem : (⟨n, true⟩ : Entry) ∈ entries)
    (hext : exts.contains (lowerStr (splitext n).2) = true) :
    (⟨n, true⟩ : Entry) ∈ matchingEntries entries exts :=
  List.mem_filter.mpr ⟨hmem, hext⟩

/-- Witness for C10: a subdirectory named "album.mp3" is selected by the
filter. -/
theorem c10_subdirectory_included_witness :
    (⟨"album.mp3", true⟩ : Entry) ∈
      matchingEntries [⟨"album.mp3", true⟩] SUPPORTED_EXTENSIONS :=
  c10_subdirectory_included [⟨"album.mp3", true⟩] SUPPORTED_EXTENSIONS
    "album.mp3" (by decide) (by decide)

/-- The extension `os.path.splitext` computes is a literal suffix of the
name it was computed from. -/
theorem splitext_snd_suffix (p : String) : (splitext p).2.data <:+ p.data := by
  unfold splitext
  cases h : splitextIdx p with
  | none => exact List.nil_suffix
  | some i => exact List.drop_suffix i p.data

/-- C2 (amended): discovery returns exactly the directory entries whose
lowercased `os.path.splitext` extension is in the extension set.  Hence
every returned entry has a case-folded name suffix in the set; the converse
completeness of the original claim holds only up to splitext's leading-dot
rule — a dotfile such as ".mp3" has a matching case-folded suffix yet is
not returned. -/
theorem c2_discover_exact (entries : List Entry) (exts : List String)
    (e : Entry) :
    (e ∈ matchingEntries entries exts ↔
      e ∈ entries ∧ exts.contains (lowerStr (splitext e.name).2) = true) ∧
    (e ∈ matchingEntries entries exts →
      ∃ x ∈ exts, x.data <:+ (lowerStr e.name).data) := by
  constructor
  · exact List.mem_filter
  · intro hm
    have h2 := (List.mem_filter.mp hm).2
    refine ⟨lowerStr (splitext e.name).2, ?_, ?_⟩
    · exact List.elem_iff.mp h2
    · exact List.IsSuffix.map Char.toLower (splitext_snd_suffix e.name)

/-- Witness for C2's amended statement: "A.MP3" is returned (its lowercased
extension ".mp3" matches) and its case-folded name indeed carries a suffix
from the set. -/
theorem c2_discover_exact_witness :
    (⟨"A.MP3", false⟩ : Entry) ∈
      matchingEntries [⟨"A.MP3", false⟩] SUPPORTED_EXTENSIONS ∧
    ∃ x ∈ SUPPORTED_EXTENSIONS, x.data <:+ (lowerStr "A.MP3").data :=
  ⟨(c2_discover_exact [⟨"A.MP3", false⟩] SUPPORTED_EXTENSIONS
      ⟨"A.MP3", false⟩).1.mpr ⟨by decide, by decide⟩,
    (c2_discover_exact [⟨"A.MP3", false⟩] SUPPORTED_EXTENSIONS
      ⟨"A.MP3", false⟩).2
      ((c2_discover_exact [⟨"A.MP3", false⟩] SUPPORTED_EXTENSIONS
        ⟨"A.MP3", false⟩).1.mpr ⟨by decide, by decide⟩)⟩

/-- C2 counterexample: in folder "d" the single entry is named ".mp3"; its
case-folded name has the suffix ".mp3", which is in SUPPORTED_EXTENSIONS,
yet discovery returns nothing — so discovery does not return every entry
whose case-folded name suffix is in the set. -/
theorem c2_counterexample :
    (∃ x ∈ SUPPORTED_EXTENSIONS, x.data <:+ (lowerStr ".mp3").data) ∧
    (⟨".mp3", false⟩ : Entry) ∈ wDotfile.listdir "d" ∧
    discoveredFiles wDotfile "d" = [] := by
  refine ⟨⟨".mp3", by decide, by decide⟩, by decide, by decide⟩

/-- C3 counterexample: a run over one file with an all-successful backend
returns Python None to its caller — not a length-one sequence of
TranscriptionResult values. -/
theorem c3_counterexample :
    (process_audio_folder wOneFile "audio" "transcripts" "base").1 =
      Except.ok none ∧
    ¬ ∃ rs : List TranscriptionResult,
        (process_audio_folder wOneFile "audio" "transcripts" "base").1 =
          Except.ok (some rs) := by
  have h : (process_audio_folder wOneFile "audio" "transcripts" "base").1 =
      Except.ok none := by decide
  refine ⟨h, ?_⟩
  rintro ⟨rs, hrs⟩
  rw [h] at hrs
  exact Option.noConfusion (Except.ok.inj hrs)

/-- C3 (amended): over N discovered files the batch performs one per-file
call per file and records N per-file outcomes (zero for an empty folder),
but the value returned to the caller is always Python None, never a
sequence of TranscriptionResult values. -/
theorem c3_returns_none (w : World) (folder od ms : String)
    (hdir : w.isDir folder = true) :
    (process_audio_folder w folder od ms).1 = Except.ok none ∧
    (process_audio_folder w folder od ms).2.fileResults.length =
      (discoveredFiles w folder).length := by
  obtain ⟨h1, h2⟩ := process_fileResults w folder od ms hdir
  exact ⟨h1, by rw [h2, List.length_map]⟩

/-- Witness for C3's amended statement at a two-file world. -/
theorem c3_returns_none_witness :
    (process_audio_folder wTwoFiles "audio" "transcripts" "base").1 =
      Except.ok none ∧
    (process_audio_folder wTwoFiles "audio" "transcripts" "base").2.fileResults.length =
      (discoveredFiles wTwoFiles "audio").length :=
  c3_returns_none wTwoFiles "audio" "transcripts" "base" (by decide)

/-- C4 counterexample: with the unrecognized model identifier "huge" — the
spec's ConfigError — a batch over two existing files neither aborts nor
surfaces any error to the caller: it completes with the Ok/None return and
both files were handled per file, each recorded as an individual failure. -/
theorem c4_counterexample :
    (process_audio_folder wTwoFiles "audio" "transcripts" "huge").1 =
      Except.ok none ∧
    (process_audio_folder wTwoFiles "audio" "transcripts" "huge").2.fileResults =
      [none, none] := by
  constructor <;> decide

/-- C4 (amended): only the folder-level NotFoundError aborts the batch run
and surfaces to the caller; the setup errors raised inside the per-file
operation — missing input file, unrecognized model identifier — are caught
by its catch-all handler, turned into the per-file failure return, and the
batch continues through every discovered file. -/
theorem c4_setup_error_policy (w : World) (folder od ms fp : String)
    (odOpt : Option String) :
    (w.isDir folder = false →
      (process_audio_folder w folder od ms).1 =
        Except.error (PyErr.fileNotFound ("Folder not found: " ++ folder))) ∧
    (w.pathExists fp = false →
      (transcribe_audio_file w fp odOpt ms).1 = Except.ok none) ∧
    (VALID_MODELS.contains ms = false →
      (transcribe_audio_file w fp odOpt ms).1 = Except.ok none) ∧
    (w.isDir folder = true → VALID_MODELS.contains ms = false →
      (process_audio_folder w folder od ms).1 = Except.ok none ∧
      (process_audio_folder w folder od ms).2.fileResults.length =
        (discoveredFiles w folder).length) := by
  refine ⟨?_, ?_, ?_, ?_⟩
  · intro h
    unfold process_audio_folder
    rw [h]
    simp
  · intro h
    unfold transcribe_audio_file transcribe_audio_file_try
    rw [h]
    simp
  · intro h
    unfold transcribe_audio_file transcribe_audio_file_try
    cases hex : w.pathExists fp
    · simp
    · rw [h]
      simp
  · intro hdir h
    obtain ⟨h1, h2⟩ := process_fileResults w folder od ms hdir
    exact ⟨h1, by rw [h2, List.length_map]⟩

/-- Witness for C4's amended statement: the folder-level error surfaces at a
world with no directories, while the invalid model "huge" is caught per
file and the two-file batch still completes. -/
theorem c4_setup_error_policy_witness :
    (process_audio_folder wNoDir "audio" "transcripts" "base").1 =
      Except.error (PyErr.fileNotFound ("Folder not found: " ++ "audio")) ∧
    (transcribe_audio_file wTwoFiles "audio/a.mp3" (some "transcripts")
        "huge").1 = Except.ok none ∧
    ((process_audio_folder wTwoFiles "audio" "transcripts" "huge").1 =
        Except.ok none ∧
      (process_audio_folder wTwoFiles "audio" "transcripts"
          "huge").2.fileResults.length =
        (discoveredFiles wTwoFiles "audio").length) :=
  ⟨(c4_setup_error_policy wNoDir "audio" "transcripts" "base" "audio/a.mp3"
      (some "transcripts")).1 (by decide),
    (c4_setup_error_policy wTwoFiles "audio" "transcripts" "huge"
      "audio/a.mp3" (some "transcripts")).2.2.1 (by decide),
    (c4_setup_error_policy wTwoFiles "audio" "transcripts" "huge"
      "audio/a.mp3" (some "transcripts")).2.2.2 (by decide) (by decide)⟩

/-- C8 counterexample: a batch over a folder with zero matching files
returns Python None — not an empty sequence — while it does create the
missing output directory and performs no backend call and no write. -/
theorem c8_counterexample :
    process_audio_folder wEmptyFolder "audio" "transcripts" "base" =
      (Except.ok none, ⟨["transcripts"], [], [], []⟩) ∧
    ¬ ∃ rs : List TranscriptionResult,
        (process_audio_folder wEmptyFolder "audio" "transcripts" "base").1 =
          Except.ok (some rs) := by
  have h : process_audio_folder wEmptyFolder "audio" "transcripts" "base" =
      (Except.ok none, ⟨["transcripts"], [], [], []⟩) := by decide
  refine ⟨h, ?_⟩
  rintro ⟨rs, hrs⟩
  rw [h] at hrs
  exact Option.noConfusion (Except.ok.inj hrs)

/-- C8 (amended): over an existing folder with zero matching files the batch
returns Python None (not an empty sequence), creates the output directory
when it is truthy and missing, performs no backend call, records no
per-file outcome and writes nothing. -/
theorem c8_empty_run (w : World) (folder od ms : String)
    (hdir : w.isDir folder = true)
    (hempty : discoveredFiles w folder = [])
    (hod : od ≠ "") (hmiss : w.pathExists od = false) :
    process_audio_folder w folder od ms =
      (Except.ok none, ⟨[od], [], [], []⟩) := by
  unfold process_audio_folder
  rw [hdir]
  simp [hempty, hod, hmiss]

/-- Witness for C8's amended statement. -/
theorem c8_empty_run_witness :
    process_audio_folder wEmptyFolder "audio" "transcripts" "base" =
      (Except.ok none, ⟨["transcripts"], [], [], []⟩) :=
  c8_empty_run wEmptyFolder "audio" "transcripts" "base" (by decide)
    (by decide) (by decide) (by decide)

/-- C5 counterexample: the successfully transcribed "audio/song.mp3" is
written by the batch script to "song_transcription_20240101_120000.txt",
and no choice of vendor tag makes that name match the claimed pattern
{baseName}_transcript_{vendorTag}_{timestamp}.txt (at character 11 the
written name has 'i' where the pattern forces '_'). -/
theorem c5_counterexample :
    (transcribe_audio_file wOneFile "audio/song.mp3" (some "transcripts")
        "base").2.writes =
      [("transcripts/" ++ batch_output_name "song" "20240101_120000",
        "hello")] ∧
    ¬ ∃ vendorTag, batch_output_name "song" "20240101_120000" =
        spec_output_name "song" vendorTag "20240101_120000" := by
  constructor
  · decide
  · rintro ⟨tag, h⟩
    have hd := congrArg String.data h
    rw [batch_output_name, spec_output_name] at hd
    simp only [String.data_append, List.append_assoc] at hd
    have hd2 := List.append_cancel_left hd
    have h11 := congrArg (fun l => List.get? l 11) hd2
    simp only at h11
    have hL : List.get? (("_transcription_").data ++
        (("20240101_120000").data ++ (".txt").data)) 11 = some 'i' := rfl
    have hR : List.get? (("_transcript_").data ++
        (tag.data ++ (("_").data ++ (("20240101_120000").data ++
          (".txt").data)))) 11 = some '_' := rfl
    rw [hL, hR] at h11
    exact absurd (Option.some.inj h11) (by decide)

/-- C5 (amended): the batch script writes its successful output to
{baseName}_transcription_{timestamp}.txt under the resolved output
directory — no vendor tag — and src/transcribe.py uses the same format; the
OpenAI API script uses {baseName}_transcription_openai_{timestamp}.txt; only
the Azure script follows the {baseName}_transcript_{vendorTag}_{timestamp}.txt
pattern, with vendor tag "azureopenai".  The timestamp is the
second-resolution local-time string captured before the write. -/
theorem c5_output_naming (w : World) (fp od ms text base ts : String)
    (hex : w.pathExists fp = true)
    (hms : VALID_MODELS.contains ms = true)
    (hb : w.backend ms fp = Except.ok text)
    (hw : w.writeErr (joinPath od
        (batch_output_name (splitext (basename fp)).1 w.now)) = none) :
    (transcribe_audio_file w fp (some od) ms).1 =
      Except.ok (some (joinPath od
        (batch_output_name (splitext (basename fp)).1 w.now))) ∧
    azure_output_name base ts = spec_output_name base "azureopenai" ts ∧
    openai_output_name base ts =
      base ++ "_transcription_openai_" ++ ts ++ ".txt" ∧
    local_output_name base ts = batch_output_name base ts := by
  refine ⟨?_, ?_, rfl, rfl⟩
  · unfold batch_output_name at hw ⊢
    unfold transcribe_audio_file transcribe_audio_file_try
    rw [hex, hms]
    simp [hb, hw]
  · unfold azure_output_name spec_output_name
    have e1 : ("_transcript_azureopenai_" : String) =
        "_transcript_" ++ "azureopenai" ++ "_" := by decide
    rw [e1]
    simp [String.append_assoc]

/-- Witness for C5's amended statement at a concrete world. -/
theorem c5_output_naming_witness :
    (transcribe_audio_file wOneFile "audio/song.mp3" (some "transcripts")
        "base").1 =
      Except.ok (some (joinPath "transcripts"
        (batch_output_name (splitext (basename "audio/song.mp3")).1
          wOneFile.now))) ∧
    azure_output_name "song" "20240101_120000" =
      spec_output_name "song" "azureopenai" "20240101_120000" ∧
    openai_output_name "song" "20240101_120000" =
      "song" ++ "_transcription_openai_" ++ "20240101_120000" ++ ".txt" ∧
    local_output_name "song" "20240101_120000" =
      batch_output_name "song" "20240101_120000" :=
  c5_output_naming wOneFile "audio/song.mp3" "transcripts" "base" "hello"
    "song" "20240101_120000" (by decide) (by decide) (by decide) (by decide)
